import Mathlib

/-!
Verification development for the callsbot signal-evaluation engine.

Shallow embedding of the evaluator (src/bot/evaluator.py), the outcome
analytics store (src/bot/stats.py) and the relevant configuration record
(src/config/config.py).  Timestamps are rational numbers of minutes,
monetary quantities are rationals, byte strings are lists of naturals.
Configuration values are loaded from the environment in the source, so the
embedding is parameterised by a configuration record; the defaults from
config.py appear as a distinguished record.
-/

namespace CallsBot

/-- Alert tiers.  Strings 'T1', 'T2', 'T3' in the source. -/
inductive Tier
  | T1
  | T2
  | T3
deriving DecidableEq, Repr

/-- Rank of a tier, from the dict literal at evaluator.py:335
(order = {'T1': 1, 'T2': 2, 'T3': 3}). -/
def rank : Tier → Nat
  | .T1 => 1
  | .T2 => 2
  | .T3 => 3

/-- Rank of the recorded last-sent tier: absent entries act as rank 0
(evaluator.py:336 short-circuits on a missing previous tier, which is
equivalent to comparing against rank 0 since every tier has rank at
least 1). -/
def rankOpt : Option Tier → Nat
  | none => 0
  | some t => rank t

/-- A mention entry (class Mention, evaluator.py:46-53).  Channels are
modelled as opaque numeric keys; timestamps are minutes. -/
structure Mention where
  timestamp_utc : ℚ
  channel : Nat
  tier : Nat
  weight : ℚ
deriving DecidableEq, Repr

/-- Market metrics produced by get_dex_metrics (src/bot/apis.py:73-125).
Only fields consumed by the evaluator are modelled.  A failed fetch returns
the empty dict in the source; every read of it defaults to 0 / absent, so
the empty dict is represented by the record of zeros with no price and no
pair-creation timestamp.  price_usd is optional: the key can be absent or
None.  pair_created_min is the pair-creation timestamp in minutes (the
source stores milliseconds and converts at evaluator.py:266). -/
structure DexMetrics where
  liquidity_usd : ℚ
  volume24_usd : ℚ
  market_cap_usd : ℚ
  txns_h1_total : ℤ
  buy_sell_ratio_h1 : ℚ
  price_change_m15 : ℚ
  price_usd : Option ℚ
  pair_created_min : Option ℚ
  trending : Bool
deriving DecidableEq, Repr

/-- The configuration values consumed by the evaluator
(src/config/config.py:102-152).  All are read from the environment with
the defaults recorded in defaultConfig below. -/
structure Config where
  OVERLAP_WINDOW_MIN : ℚ
  MIN_UNIQUE_CHANNELS_T1 : Nat
  MENTION_DECAY_HALF_LIFE_MIN : ℚ
  MINT_SAFETY_REQUIRED : Bool
  LIQ_MIN_USD : ℚ
  VOL24_MIN_USD : ℚ
  T2_LIQ_MIN_USD : ℚ
  T2_LIQ_DRAWDOWN_MAX_PCT : ℚ
  T2_TXNS_H1_MIN : ℤ
  T2_BUY_SELL_RATIO_MIN : ℚ
  T2_AGE_MIN_MINUTES : ℚ
  T2_AGE_MAX_MINUTES : ℚ
  T3_MCAP_MIN_USD : ℚ
  T3_VOL24_MIN_USD : ℚ
  T3_PRICE_MIN_X : ℚ
  T3_PRICE_MAX_X : ℚ
  T3_POS_TREND_REQUIRED : Bool
  T3_AGE_MIN_MINUTES : ℚ
  T3_AGE_MAX_MINUTES : ℚ
deriving DecidableEq, Repr

/-- Default values from config.py (lines 104-152). -/
def defaultConfig : Config where
  OVERLAP_WINDOW_MIN := 15
  MIN_UNIQUE_CHANNELS_T1 := 4
  MENTION_DECAY_HALF_LIFE_MIN := 60
  MINT_SAFETY_REQUIRED := true
  LIQ_MIN_USD := 15000
  VOL24_MIN_USD := 50000
  T2_LIQ_MIN_USD := 50000
  T2_LIQ_DRAWDOWN_MAX_PCT := 10
  T2_TXNS_H1_MIN := 500
  T2_BUY_SELL_RATIO_MIN := 3/2
  T2_AGE_MIN_MINUTES := 30
  T2_AGE_MAX_MINUTES := 90
  T3_MCAP_MIN_USD := 500000
  T3_VOL24_MIN_USD := 2000000
  T3_PRICE_MIN_X := 5
  T3_PRICE_MAX_X := 20
  T3_POS_TREND_REQUIRED := true
  T3_AGE_MIN_MINUTES := 120
  T3_AGE_MAX_MINUTES := 240

/-- parse_mint_safety (evaluator.py:388-396) reads two little-endian
32-bit option discriminants from an SPL mint account.  int.from_bytes
little-endian over a byte list. -/
def int_from_bytes_le (bs : List Nat) : Nat :=
  bs.foldr (fun b acc => b + 256 * acc) 0

/-- parse_mint_safety (evaluator.py:388-396): inputs shorter than 82 bytes
yield (False, False); otherwise the mint-authority discriminant is bytes
[0:4] and the freeze-authority discriminant is bytes [45:49], both
little-endian, and the result is (mint == 0, freeze == 0).  The source
wraps the body in try/except, but slicing and from_bytes are total, so the
function is total; the Lean model is a total function. -/
def parse_mint_safety (data : List Nat) : Bool × Bool :=
  if data.length < 82 then (false, false)
  else
    let mint_auth_opt := int_from_bytes_le (data.take 4)
    let freeze_auth_opt := int_from_bytes_le ((data.drop 45).take 4)
    (decide (mint_auth_opt = 0), decide (freeze_auth_opt = 0))

/-- Possible outcomes of the safety probe solana_get_account_info as seen
by ensure_safety_checked (evaluator.py:160-172): the call raises (fail),
returns falsy data (empty), or returns account bytes. -/
inductive AccountInfoResult
  | fail
  | empty
  | bytes (data : List Nat)
deriving DecidableEq, Repr

/-- The safety value computed on a cache miss (evaluator.py:163-170):
flags start at (False, False); on data they come from parse_mint_safety;
on an exception or falsy data they remain (False, False). -/
def compute_safety : AccountInfoResult → Bool × Bool
  | .fail => (false, false)
  | .empty => (false, false)
  | .bytes d => parse_mint_safety d

/-- One call to ensure_safety_checked (evaluator.py:160-172) for an
entity: first component is the returned pair together with whether the
probe was invoked on this call; second component is the updated cache
entry. -/
def safety_call (cache : Option (Bool × Bool)) (probe : AccountInfoResult) :
    ((Bool × Bool) × Bool) × Option (Bool × Bool) :=
  match cache with
  | some r => ((r, false), some r)
  | none => ((compute_safety probe, true), some (compute_safety probe))

/-- A sequence of ensure_safety_checked calls for one entity, threading
the cache; returns the per-call (result, probe-invoked) pairs. -/
def safety_run : Option (Bool × Bool) → List AccountInfoResult →
    List ((Bool × Bool) × Bool)
  | _, [] => []
  | c, p :: ps =>
    let ((r, inv), c') := safety_call c p
    (r, inv) :: safety_run c' ps

/-- Mentions retained after the 3-hour window filter
(evaluator.py:213-214 and evaluator.py:138): keep m iff
m.timestamp_utc is at or after now minus 180 minutes. -/
def retained (now : ℚ) (arr : List Mention) : List Mention :=
  arr.filter (fun m => now - 180 ≤ m.timestamp_utc)

/-- Peak-liquidity high-water-mark update (evaluator.py:243-247): when the
fresh liquidity is positive and exceeds the stored peak (default 0), the
peak becomes the fresh liquidity. -/
def update_peak (peak : Option ℚ) (liq : ℚ) : Option ℚ :=
  if 0 < liq then (if peak.getD 0 < liq then some liq else peak) else peak

/-- Liquidity drawdown used by the T2 gate (evaluator.py:280-283):
peak defaults to the current liquidity when no peak is stored; when the
peak is positive the drawdown is max(0, (peak - liq) / peak * 100),
otherwise 0. -/
def drawdown_pct (peak : Option ℚ) (liq : ℚ) : ℚ :=
  let pk := peak.getD liq
  if 0 < pk then max 0 ((pk - liq) / pk * 100) else 0

/-- The inputs of the tier-classification section of process_mention
(evaluator.py:259-329), gathered after the ledger/cache bookkeeping:
unique-channel count, safety verdict, resolved entity age, the two
holder/whale probe verdicts (the probe is invoked separately inside the T2
and the T3 branches), the market fields, the latched tier-1 reference
price, the peak liquidity after the high-water-mark update, and the VIP
corroboration count. -/
structure ClassifyInput where
  k_unique : Nat
  safe_ok : Bool
  age_min : Option ℚ
  holders2_ok : Bool
  holders3_ok : Bool
  liquidity_usd : ℚ
  volume24_usd : ℚ
  market_cap_usd : ℚ
  txns_h1_total : ℤ
  buy_sell_ratio_h1 : ℚ
  price_change_m15 : ℚ
  price_usd : Option ℚ
  t1_price : Option ℚ
  peak_after_update : Option ℚ
  vip_count : Nat
deriving DecidableEq, Repr

/-- The guard of the T2 (confirmation) branch (evaluator.py:272-293):
age known and inside [T2_AGE_MIN, T2_AGE_MAX]; holder/whale check passes;
liquidity at least max(LIQ_MIN_USD, T2_LIQ_MIN_USD); drawdown from peak at
most T2_LIQ_DRAWDOWN_MAX_PCT; hourly transactions, buy/sell ratio and VIP
count over their floors. -/
def t2_checks (cfg : Config) (x : ClassifyInput) : Bool :=
  match x.age_min with
  | none => false
  | some a =>
    decide (cfg.T2_AGE_MIN_MINUTES ≤ a) && decide (a ≤ cfg.T2_AGE_MAX_MINUTES) &&
    x.holders2_ok &&
    decide (max cfg.LIQ_MIN_USD cfg.T2_LIQ_MIN_USD ≤ x.liquidity_usd) &&
    decide (drawdown_pct x.peak_after_update x.liquidity_usd ≤ cfg.T2_LIQ_DRAWDOWN_MAX_PCT) &&
    decide (cfg.T2_TXNS_H1_MIN ≤ x.txns_h1_total) &&
    decide (cfg.T2_BUY_SELL_RATIO_MIN ≤ x.buy_sell_ratio_h1) &&
    decide (1 ≤ x.vip_count)

/-- The T3 price-multiple condition (evaluator.py:299-308): when both a
current price and a tier-1 reference price exist and both are positive,
the multiple must lie in [T3_PRICE_MIN_X, T3_PRICE_MAX_X); in every other
case the condition is treated as satisfied. -/
def t3_price_ok (cfg : Config) (x : ClassifyInput) : Bool :=
  match x.price_usd, x.t1_price with
  | some cur, some base =>
    if 0 < cur ∧ 0 < base then
      decide (cfg.T3_PRICE_MIN_X ≤ cur / base ∧ cur / base < cfg.T3_PRICE_MAX_X)
    else true
  | _, _ => true

/-- The T3 positive-trend condition (evaluator.py:309). -/
def t3_trend_ok (cfg : Config) (x : ClassifyInput) : Bool :=
  if cfg.T3_POS_TREND_REQUIRED then decide (0 < x.price_change_m15) else true

/-- The guard of the T3 (momentum) branch (evaluator.py:296-325):
age unknown or inside [T3_AGE_MIN, T3_AGE_MAX]; market cap and 24h volume
over their floors; price-multiple and trend conditions; holder/whale check
passes (invoked last, inside the branch). -/
def t3_checks (cfg : Config) (x : ClassifyInput) : Bool :=
  (match x.age_min with
   | none => true
   | some a => decide (cfg.T3_AGE_MIN_MINUTES ≤ a ∧ a ≤ cfg.T3_AGE_MAX_MINUTES)) &&
  decide (cfg.T3_MCAP_MIN_USD ≤ x.market_cap_usd) &&
  decide (cfg.T3_VOL24_MIN_USD ≤ x.volume24_usd) &&
  t3_price_ok cfg x && t3_trend_ok cfg x && x.holders3_ok

/-- The full qualification predicate of the T2 branch, including the
enclosing safety gate (evaluator.py:261). -/
def t2_qualifies (cfg : Config) (x : ClassifyInput) : Bool :=
  x.safe_ok && t2_checks cfg x

/-- The full qualification predicate of the T3 branch, including the
enclosing safety gate (evaluator.py:261). -/
def t3_qualifies (cfg : Config) (x : ClassifyInput) : Bool :=
  x.safe_ok && t3_checks cfg x

/-- The classification decision of process_mention (evaluator.py:259-329).
Under the safety gate the T2 branch is evaluated first; the T3 branch runs
only when no classification was produced; finally T1 requires only the
unique-channel threshold and no market or safety gate. -/
def classify (cfg : Config) (x : ClassifyInput) : Option Tier :=
  let cls0 : Option Tier :=
    if x.safe_ok then
      if t2_checks cfg x then some .T2
      else if t3_checks cfg x then some .T3
      else none
    else none
  match cls0 with
  | some c => some c
  | none =>
    if cfg.MIN_UNIQUE_CHANNELS_T1 ≤ x.k_unique then some .T1 else none

/-- Per-entity evaluator state (class EvaluatorState, evaluator.py:80-89),
restricted to the slice for a single entity.  vip_count is the size of the
VIP-holder set for the entity; it is read but never written by
process_mention (the VIP watcher grows it from another loop). -/
structure EntityState where
  mentions : List Mention
  last_rank_sent : Option Tier
  safety_cache : Option (Bool × Bool)
  dex_cache : Option (ℚ × DexMetrics)
  vip_count : Nat
  t1_price_usd : Option ℚ
  first_seen_ts : Option ℚ
  peak_liquidity_usd : Option ℚ
deriving DecidableEq, Repr

/-- The external responses consumed by one process_mention call: the
current time, the mentioning channel, the safety-probe outcome (used only
on a safety-cache miss), the market metrics fetch result (used only when
the 60-second dex cache is stale), and the two holder/whale probe verdicts
(used only when the corresponding branch reaches them). -/
structure MentionInput where
  now : ℚ
  channel : Nat
  probe : AccountInfoResult
  fetched : DexMetrics
  holders2_ok : Bool
  holders3_ok : Bool
deriving DecidableEq, Repr

/-- Unique channels among retained mentions not older than the overlap
window (evaluator.py:218-223), counted as a set. -/
def unique_channels_recent (cfg : Config) (now : ℚ) (ms : List Mention) : Nat :=
  ((ms.filter (fun m => now - m.timestamp_utc ≤ cfg.OVERLAP_WINDOW_MIN)).map
    (fun m => m.channel)).dedup.length

/-- The market metrics used by one process_mention call
(evaluator.py:235-240): the cached entry when it is at most 60 seconds
(one minute) old, else the fresh fetch. -/
def resolved_dex (st : EntityState) (inp : MentionInput) : DexMetrics :=
  match st.dex_cache with
  | some (ts, d) => if 1 < inp.now - ts then inp.fetched else d
  | none => inp.fetched

/-- The dex cache after one process_mention call (evaluator.py:236-240):
refreshed with the fresh fetch stamped at now when absent or stale. -/
def resolved_dex_cache (st : EntityState) (inp : MentionInput) : Option (ℚ × DexMetrics) :=
  match st.dex_cache with
  | some (ts, d) => if 1 < inp.now - ts then some (inp.now, inp.fetched) else some (ts, d)
  | none => some (inp.now, inp.fetched)

/-- The entity age in minutes (evaluator.py:263-270, 297-298): preferred
from the pair-creation timestamp, clamped at 0; otherwise from the
first-seen timestamp, which process_mention has always set by this point.
The source's datetime parse failure path leaves the age unknown and is
subsumed by an absent pair-creation timestamp. -/
def age_minutes (now : ℚ) (pair_created : Option ℚ) (first_seen : Option ℚ) : Option ℚ :=
  match pair_created with
  | some pc => some (max 0 (now - pc))
  | none => first_seen.map (fun t => now - t)

/-- The classification input assembled by one process_mention call on
state st.  Mirrors the straight-line prefix of process_mention
(evaluator.py:204-257): append the mention, set first-seen, prune to the
3-hour window, count unique recent channels, read the safety cache or
probe, read or refresh the dex cache, update the peak liquidity.
The decayed score and the velocity counters are also computed there but
feed only the alert text, not the decision; market_sane
(evaluator.py:257) is computed and never used. -/
def classify_input_of (cfg : Config) (st : EntityState) (inp : MentionInput) :
    ClassifyInput :=
  let now := inp.now
  let ms := retained now (st.mentions ++ [⟨now, inp.channel, 3, 1⟩])
  let first_seen := some (st.first_seen_ts.getD now)
  let mf := (safety_call st.safety_cache inp.probe).1.1
  let dex := resolved_dex st inp
  let safe_ok := if cfg.MINT_SAFETY_REQUIRED then mf.1 && mf.2 else true
  let peak' := update_peak st.peak_liquidity_usd dex.liquidity_usd
  { k_unique := unique_channels_recent cfg now ms
    safe_ok := safe_ok
    age_min := age_minutes now dex.pair_created_min first_seen
    holders2_ok := inp.holders2_ok
    holders3_ok := inp.holders3_ok
    liquidity_usd := dex.liquidity_usd
    volume24_usd := dex.volume24_usd
    market_cap_usd := dex.market_cap_usd
    txns_h1_total := dex.txns_h1_total
    buy_sell_ratio_h1 := dex.buy_sell_ratio_h1
    price_change_m15 := dex.price_change_m15
    price_usd := dex.price_usd
    t1_price := st.t1_price_usd
    peak_after_update := peak'
    vip_count := st.vip_count }

/-- The state after the bookkeeping prefix of process_mention
(evaluator.py:204-257), before the alert gate: mentions appended and
pruned, first-seen set, safety cache filled, dex cache refreshed, peak
liquidity updated. -/
def pre_state (st : EntityState) (inp : MentionInput) : EntityState :=
  let now := inp.now
  { st with
    mentions := retained now (st.mentions ++ [⟨now, inp.channel, 3, 1⟩])
    first_seen_ts := some (st.first_seen_ts.getD now)
    safety_cache := (safety_call st.safety_cache inp.probe).2
    dex_cache := resolved_dex_cache st inp
    peak_liquidity_usd :=
      update_peak st.peak_liquidity_usd (resolved_dex st inp).liquidity_usd }

/-- The tier-1 reference-price latch (evaluator.py:339-344): on an
accepted T1 with no reference price yet, a truthy live price (present and
nonzero) is stored; in every other case the stored value is kept. -/
def t1_latch (st : EntityState) (inp : MentionInput) (c : Tier) : Option ℚ :=
  if c = .T1 ∧ st.t1_price_usd = none then
    match (resolved_dex st inp).price_usd with
    | some q => if q ≠ 0 then some q else st.t1_price_usd
    | none => st.t1_price_usd
  else st.t1_price_usd

/-- The alert gate test (evaluator.py:334-337): reject when a previous
tier of equal or higher rank was sent; a missing previous tier
short-circuits to accept. -/
def gate_rejects (prev : Option Tier) (c : Tier) : Bool :=
  match prev with
  | some p => decide (rank c ≤ rank p)
  | none => false

/-- One process_mention call (evaluator.py:204-385) for a single entity:
returns the new state and the emitted alert tier, if any.  After the
bookkeeping prefix, the classification is computed; with no
classification the call returns (evaluator.py:331-332).  The alert gate
(evaluator.py:334-337) rejects when a previous tier of equal or higher
rank was sent.  On acceptance, a first T1 latches the live price when one
is available, the alert is sent, and the last-sent rank is recorded
(evaluator.py:360-361).  Message formatting and the analytics snapshot
have no effect on this state and are omitted. -/
def process_mention (cfg : Config) (st : EntityState) (inp : MentionInput) :
    EntityState × Option Tier :=
  let stBase := pre_state st inp
  match classify cfg (classify_input_of cfg st inp) with
  | none => (stBase, none)
  | some c =>
    if gate_rejects st.last_rank_sent c then
      (stBase, none)
    else
      ({ stBase with t1_price_usd := t1_latch st inp c, last_rank_sent := some c }, some c)

/-- A sequence of process_mention calls for one entity; returns the final
state and the list of tiers for which alerts were actually sent, in
order. -/
def run_mentions (cfg : Config) : EntityState → List MentionInput →
    EntityState × List Tier
  | st, [] => (st, [])
  | st, i :: is =>
    let (st', out) := process_mention cfg st i
    let (stF, outs) := run_mentions cfg st' is
    (stF, match out with | some c => c :: outs | none => outs)

/-- prune_memory (evaluator.py:132-149) restricted to one entity: mentions
outside the 3-hour window are dropped (an entity whose list empties is
removed from the map, which the single-entity view renders as the empty
list), and dex-cache entries older than one hour expire.  The global
size-cap trimming (evaluator.py:150-158) concerns map cardinality across
entities and is outside the single-entity model. -/
def prune_memory (now : ℚ) (st : EntityState) : EntityState :=
  { st with
    mentions := retained now st.mentions
    dex_cache :=
      match st.dex_cache with
      | some (ts, d) => if now - ts ≤ 60 then some (ts, d) else none
      | none => none }

/-! Outcome analytics (src/bot/stats.py), restricted to a single entity.
Timestamps are integer minutes since an epoch at a UTC midnight.  All
stored ts_utc values (signals, snapshots, outcomes) are Python
isoformat() strings with a 'T' date-time separator, so comparisons among
stored values — the MIN over signals, the fallback start-price query
(ts_utc <= base_ts, stats.py:336) and the outcome existence check
(ts_utc >= base_ts, stats.py:347) — follow instant order and are modelled
as integer comparisons.  The one exception is the end-snapshot query
(stats.py:356), which compares stored 'T'-separator strings against
SQLite's datetime(base_ts, '+m minutes'), whose output uses a space
separator: since 'T' sorts above ' ' at index 10, a stored timestamp
exceeds that bound exactly when its UTC day is at least the bound's UTC
day, regardless of the time of day.  That query is therefore modelled
with a day-granularity comparison (utc_day below). -/

/-- A row of the snapshots table (stats.py:100-121) as read by outcome
derivation: its timestamp and its nullable price. -/
structure Snapshot where
  ts_utc : ℤ
  price_usd : Option ℚ
deriving DecidableEq, Repr

/-- A row of the outcomes table (stats.py:177-189): outcome timestamp
(the end snapshot's), horizon, ROI and the two prices. -/
structure OutcomeRec where
  ts_utc : ℤ
  horizon_min : ℤ
  roi_pct : ℚ
  price_start_usd : ℚ
  price_end_usd : ℚ
deriving DecidableEq, Repr

/-- The StatsRecorder state for one entity: signal timestamps, the
in-memory start price (_start_price_by_ca), the snapshots table slice and
the outcomes table slice. -/
structure StatsState where
  signals : List ℤ
  start_price_mem : Option ℚ
  snapshots : List Snapshot
  outcomes : List OutcomeRec
deriving DecidableEq, Repr

/-- record_signal (stats.py:193-201) as it affects outcome derivation:
the signal timestamp is inserted, and a positive carried price is latched
as the in-memory start price (later positive prices overwrite the
in-memory entry; the first signal's is the one in place when derivation
first resolves). -/
def record_signal (st : StatsState) (ts : ℤ) (price : Option ℚ) : StatsState :=
  { st with
    signals := st.signals ++ [ts]
    start_price_mem :=
      match price with
      | some p => if 0 < p then some p else st.start_price_mem
      | none => st.start_price_mem }

/-- record_snapshot (stats.py:253-287): the snapshots table has
UNIQUE(ts_utc, ca) ON CONFLICT IGNORE, so an arrival at an already-present
timestamp is dropped. -/
def add_snapshot (st : StatsState) (s : Snapshot) : StatsState :=
  if st.snapshots.any (fun t => t.ts_utc == s.ts_utc) then st
  else { st with snapshots := st.snapshots ++ [s] }

/-- The latest snapshot at or before t (the start-price fallback query,
stats.py:335-338: ORDER BY ts_utc DESC LIMIT 1, no price filter).  The
bound is the raw base_ts string, a 'T'-vs-'T' comparison, hence instant
order.  Equal timestamps cannot occur in the table. -/
def latest_at_or_before (t : ℤ) : List Snapshot → Option Snapshot
  | [] => none
  | s :: rest =>
    let r := latest_at_or_before t rest
    if s.ts_utc ≤ t then
      match r with
      | none => some s
      | some s2 => if s2.ts_utc ≤ s.ts_utc then some s else some s2
    else r

/-- The UTC day holding epoch minute t (1440 minutes per day, floor
division). -/
def utc_day (t : ℤ) : ℤ := Int.fdiv t 1440

/-- The end query (stats.py:355-358): WHERE ts_utc >=
datetime(base, '+m minutes') AND price_usd IS NOT NULL ORDER BY ts_utc
ASC LIMIT 1, with t standing for base + m.  The stored 'T'-separator
timestamp exceeds the space-separated datetime() bound exactly when its
UTC day is at least the bound's UTC day (verified against SQLite), so the
query admits every non-null-price snapshot on the same UTC day as t or
later — including snapshots before t, even before the base signal — and
returns the earliest admitted snapshot in instant order. -/
def end_snapshot_query (t : ℤ) : List Snapshot → Option Snapshot
  | [] => none
  | s :: rest =>
    let r := end_snapshot_query t rest
    if s.price_usd.isSome && decide (utc_day t ≤ utc_day s.ts_utc) then
      match r with
      | none => some s
      | some s2 => if s.ts_utc ≤ s2.ts_utc then some s else some s2
    else r

/-- The start price used by outcome derivation (stats.py:332-343): the
in-memory price when truthy (present and nonzero), else the latest
snapshot at or before the base timestamp, required to carry a positive
price; with neither, derivation aborts. -/
def resolve_start_price (mem : Option ℚ) (snaps : List Snapshot) (base : ℤ) :
    Option ℚ :=
  let fb : Option ℚ :=
    match latest_at_or_before base snaps with
    | none => none
    | some s =>
      match s.price_usd with
      | none => none
      | some q => if q ≤ 0 then none else some q
  match mem with
  | none => fb
  | some p => if p = 0 then fb else some p

/-- The body of the per-horizon loop of
maybe_record_outcomes_from_snapshots (stats.py:345-369): skip when an
outcome row for this horizon with ts_utc >= base already exists (a raw
'T'-vs-'T' comparison, hence instant order); run the end query for
base + m (day-granularity, see end_snapshot_query); skip when it returns
nothing or the returned price is not positive; otherwise append the
outcome row with roi_pct = (end - start) / start * 100 and the end
snapshot's timestamp. -/
def derive_horizon (base : ℤ) (sp : ℚ) (st : StatsState) (m : ℤ) : StatsState :=
  if st.outcomes.any (fun o => o.horizon_min == m && decide (base ≤ o.ts_utc)) then st
  else
    match end_snapshot_query (base + m) st.snapshots with
    | none => st
    | some s =>
      let e := s.price_usd.getD 0
      if e ≤ 0 then st
      else
        { st with
          outcomes := st.outcomes ++
            [⟨s.ts_utc, m, (e - sp) / sp * 100, sp, e⟩] }

/-- maybe_record_outcomes_from_snapshots (stats.py:317-369): abort when
the entity has no signal (base = MIN(ts_utc) over its signals) or when no
start price resolves; otherwise run the per-horizon loop over the
configured horizon list. -/
def maybe_record_outcomes (horizons : List ℤ) (st : StatsState) : StatsState :=
  match st.signals.min? with
  | none => st
  | some base =>
    match resolve_start_price st.start_price_mem st.snapshots base with
    | none => st
    | some sp => horizons.foldl (derive_horizon base sp) st

/-- The outcome rows recorded for one horizon. -/
def outcomes_for (st : StatsState) (m : ℤ) : List OutcomeRec :=
  st.outcomes.filter (fun o => o.horizon_min == m)

/-- Modelled from the spec's words, for comparison with the code
(claim C5): the earliest stored snapshot whose timestamp is at or after
the target and whose price is positive. -/
def claim_end_snapshot (t : ℤ) : List Snapshot → Option Snapshot
  | [] => none
  | s :: rest =>
    let r := claim_end_snapshot t rest
    if (match s.price_usd with | some q => decide (0 < q) | none => false) &&
        decide (t ≤ s.ts_utc) then
      match r with
      | none => some s
      | some s2 => if s.ts_utc ≤ s2.ts_utc then some s else some s2
    else r

/-! Mention-decay weighting (evaluator.py:60-64, 217-221). -/

/-- The effective half-life (evaluator.py:63): the configured
MENTION_DECAY_HALF_LIFE_MIN clamped below at 1 minute. -/
def decay_half_life (cfg : Config) : ℚ :=
  max cfg.MENTION_DECAY_HALF_LIFE_MIN 1

/-- _decay_multiplier (evaluator.py:60-64): 1 for non-positive ages, else
exp(-ln 2 * age / half_life).  The source's literal 0.6931471805599453 is
ln 2 at double precision; it is modelled as Real.log 2. -/
noncomputable def decay_multiplier (cfg : Config) (age_minutes : ℝ) : ℝ :=
  if age_minutes ≤ 0 then 1
  else Real.exp (-(Real.log 2) * (age_minutes / (decay_half_life cfg : ℝ)))

/-- The decayed weighted score accumulated at evaluator.py:217-221: the
sum over retained mentions of weight times the decay multiplier of the
mention's age at evaluation time. -/
noncomputable def decayed_score (cfg : Config) (now : ℚ) : List Mention → ℝ
  | [] => 0
  | m :: rest =>
    (m.weight : ℝ) * decay_multiplier cfg ((now - m.timestamp_utc : ℚ) : ℝ) +
      decayed_score cfg now rest

/-! Concrete instances used by counterexamples and witnesses. -/

/-- The default configuration with the T2 age window widened to
[30, 200] minutes via the T2_AGE_MAX_MINUTES environment knob.  This
passes config.py's range validation (validate_ranges only requires each
window's max to be at least its min and the price bounds to be ordered)
and makes the T2 and T3 age windows overlap on [120, 200]. -/
def ctrCfg : Config := { defaultConfig with T2_AGE_MAX_MINUTES := 200 }

/-- A classification input at age 150 minutes satisfying every T2
condition and every T3 condition simultaneously under ctrCfg. -/
def ctrX : ClassifyInput :=
  ⟨0, true, some 150, true, true, 100000, 3000000, 600000, 600, 2, 1,
   none, none, some 100000, 1⟩

/-- A fresh-entity state holding three retained mentions from distinct
channels at time 0. -/
def st0 : EntityState :=
  ⟨[⟨0, 1, 3, 1⟩, ⟨0, 2, 3, 1⟩, ⟨0, 3, 3, 1⟩], none, none, none, 0, none, none, none⟩

/-- A mention from a fourth channel at time 0 whose safety probe raises
and whose market fetch is the empty result. -/
def inp0 : MentionInput := ⟨0, 0, .fail, ⟨0, 0, 0, 0, 0, 0, none, none, false⟩, false, false⟩

/-- The spec's outcome scenario (entity G): a baseline signal at ts = 0
carrying price 1.0, then a snapshot 15 minutes later at price 1.5. -/
def stG : StatsState :=
  add_snapshot (record_signal ⟨[], none, [], []⟩ 0 (some 1)) ⟨15, some (3/2)⟩

/-- A stats state whose end query for base + 15 selects the snapshot at
ts 15 carrying price 0, while a later snapshot at ts 16 carries the
positive price 1.5. -/
def stX : StatsState := ⟨[0], some 1, [⟨15, some 0⟩, ⟨16, some (3/2)⟩], []⟩

/-- A stats state with its base signal at minute 720 (noon) of UTC day 0
carrying start price 1, and a single snapshot at minute 60 of the same
UTC day — eleven hours before the signal — carrying price 2.  The end
query for base + 15 admits it (same UTC day). -/
def stB : StatsState := ⟨[720], some 1, [⟨60, some 2⟩], []⟩

/-- The default configuration with the mention-decay half-life set to 0.5
minutes via its environment knob. -/
def cfgHalf : Config := { defaultConfig with MENTION_DECAY_HALF_LIFE_MIN := 1/2 }

/-- A state like st0 whose tier-1 reference price is already latched
at 5. -/
def st5 : EntityState := { st0 with t1_price_usd := some 5 }

/-! Theorems. -/

/-- A 4-byte slice starting at offset i, as the list of the bytes at
offsets i, i+1, i+2, i+3. -/
theorem take4_drop_getD : ∀ (l : List Nat) (i : Nat), i + 4 ≤ l.length →
    (l.drop i).take 4 = [l.getD i 0, l.getD (i+1) 0, l.getD (i+2) 0, l.getD (i+3) 0]
  | [], _, h => by simp at h
  | a :: ls, 0, h => by
    match ls, h with
    | b :: c :: d :: rest, _ => simp [List.getD]
  | a :: ls, i + 1, h => by
    have ih := take4_drop_getD ls i (by simpa using h)
    simpa [List.getD_cons_succ] using ih

/-- Little-endian value of a 4-byte list. -/
theorem int_from_bytes_le_four (a b c d : Nat) :
    int_from_bytes_le [a, b, c, d] = a + 256 * b + 65536 * c + 16777216 * d := by
  simp [int_from_bytes_le]
  ring

/-- Claim C10: parse_mint_safety is total and fails closed: every byte
string shorter than 82 bytes yields (false, false); for every byte string
of length at least 82 the result is (m = 0, f = 0) where m is the
little-endian 32-bit integer over bytes 0..3 and f the little-endian
32-bit integer over bytes 45..48.  The Lean model is a total function, so
no input raises. -/
theorem parse_mint_safety_spec :
    (∀ data : List Nat, data.length < 82 → parse_mint_safety data = (false, false))
    ∧ (∀ data : List Nat, 82 ≤ data.length →
        parse_mint_safety data =
          (decide (data.getD 0 0 + 256 * data.getD 1 0 + 65536 * data.getD 2 0 +
              16777216 * data.getD 3 0 = 0),
           decide (data.getD 45 0 + 256 * data.getD 46 0 + 65536 * data.getD 47 0 +
              16777216 * data.getD 48 0 = 0))) := by
  constructor
  · intro data h
    simp [parse_mint_safety, h]
  · intro data h
    have e0 : data.take 4 = [data.getD 0 0, data.getD 1 0, data.getD 2 0, data.getD 3 0] := by
      have := take4_drop_getD data 0 (by omega)
      simpa using this
    have e45 : (data.drop 45).take 4 =
        [data.getD 45 0, data.getD 46 0, data.getD 47 0, data.getD 48 0] :=
      take4_drop_getD data 45 (by omega)
    unfold parse_mint_safety
    rw [if_neg (by omega), e0, e45, int_from_bytes_le_four, int_from_bytes_le_four]

/-- Witness for C10 at the all-zero 82-byte account and at a 3-byte
input. -/
theorem parse_mint_safety_spec_witness :
    82 ≤ (List.replicate 82 0).length
    ∧ parse_mint_safety (List.replicate 82 0) =
        (decide ((List.replicate 82 0).getD 0 0 + 256 * (List.replicate 82 0).getD 1 0 +
            65536 * (List.replicate 82 0).getD 2 0 +
            16777216 * (List.replicate 82 0).getD 3 0 = 0),
         decide ((List.replicate 82 0).getD 45 0 + 256 * (List.replicate 82 0).getD 46 0 +
            65536 * (List.replicate 82 0).getD 47 0 +
            16777216 * (List.replicate 82 0).getD 48 0 = 0))
    ∧ parse_mint_safety [1, 2, 3] = (false, false) :=
  ⟨by decide,
   parse_mint_safety_spec.2 (List.replicate 82 0) (by decide),
   parse_mint_safety_spec.1 [1, 2, 3] (by decide)⟩

/-- Claim C8: after the append in process_mention and after a
prune_memory pass, the retained mention list holds exactly the mentions
whose age is at most the 180-minute retention window; a mention aged 181
minutes is excluded and one aged 179 minutes is included. -/
theorem mention_retention_window :
    (∀ (now : ℚ) (arr : List Mention) (m : Mention),
        m ∈ retained now arr ↔ m ∈ arr ∧ now - m.timestamp_utc ≤ 180)
    ∧ (∀ (cfg : Config) (st : EntityState) (inp : MentionInput),
        (process_mention cfg st inp).1.mentions =
          retained inp.now (st.mentions ++ [⟨inp.now, inp.channel, 3, 1⟩]))
    ∧ (∀ (now : ℚ) (st : EntityState),
        (prune_memory now st).mentions = retained now st.mentions)
    ∧ Mention.mk (1000 - 181) 7 3 1 ∉
        retained 1000 [⟨1000 - 181, 7, 3, 1⟩, ⟨1000 - 179, 8, 3, 1⟩]
    ∧ Mention.mk (1000 - 179) 8 3 1 ∈
        retained 1000 [⟨1000 - 181, 7, 3, 1⟩, ⟨1000 - 179, 8, 3, 1⟩] := by
  refine ⟨?_, ?_, ?_, ?_, ?_⟩
  · intro now arr m
    simp only [retained, List.mem_filter, decide_eq_true_eq]
    constructor
    · rintro ⟨h1, h2⟩
      exact ⟨h1, by linarith⟩
    · rintro ⟨h1, h2⟩
      exact ⟨h1, by linarith⟩
  · intro cfg st inp
    unfold process_mention
    rcases hc : classify cfg (classify_input_of cfg st inp) with _ | c
    · simp [pre_state]
    · dsimp only
      split
      · simp [pre_state]
      · simp [pre_state]
  · intro now st
    simp [prune_memory]
  · norm_num [retained, List.filter]
  · norm_num [retained, List.filter]

/-- Claim C7: the stored peak liquidity is a high-water mark, updated to
a fresh positive liquidity exactly when it exceeds the stored peak, hence
non-decreasing; the drawdown used by the T2 gate is
max(0, (peak - current) / peak * 100) whenever a positive peak is stored;
for the sequence [10000, 50000, 20000] the final peak is 50000 and the
drawdown at the third point is 60. -/
theorem peak_liquidity_drawdown :
    (∀ (p : Option ℚ) (l : ℚ), p.getD 0 ≤ (update_peak p l).getD 0)
    ∧ (∀ (p : Option ℚ) (l : ℚ), 0 < l → p.getD 0 < l → update_peak p l = some l)
    ∧ (∀ (p : Option ℚ) (l : ℚ), l ≤ p.getD 0 → update_peak p l = p)
    ∧ (∀ (p : Option ℚ) (l : ℚ), l ≤ 0 → update_peak p l = p)
    ∧ (∀ (cfg : Config) (st : EntityState) (inp : MentionInput),
        (process_mention cfg st inp).1.peak_liquidity_usd =
          update_peak st.peak_liquidity_usd (resolved_dex st inp).liquidity_usd)
    ∧ (∀ pk liq : ℚ, 0 < pk →
        drawdown_pct (some pk) liq = max 0 ((pk - liq) / pk * 100))
    ∧ List.foldl update_peak none [10000, 50000, 20000] = some 50000
    ∧ drawdown_pct (List.foldl update_peak none [10000, 50000, 20000]) 20000 = 60 := by
  refine ⟨?_, ?_, ?_, ?_, ?_, ?_, ?_, ?_⟩
  · intro p l
    unfold update_peak
    split
    · split
      · simp only [Option.getD_some]
        linarith [le_of_lt (by assumption : p.getD 0 < l)]
      · exact le_refl _
    · exact le_refl _
  · intro p l h1 h2
    simp [update_peak, h1, h2]
  · intro p l h
    unfold update_peak
    split
    · rw [if_neg (by linarith)]
    · rfl
  · intro p l h
    simp [update_peak, not_lt.mpr h]
  · intro cfg st inp
    unfold process_mention
    rcases hc : classify cfg (classify_input_of cfg st inp) with _ | c
    · simp [pre_state]
    · dsimp only
      split
      · simp [pre_state]
      · simp [pre_state]
  · intro pk liq h
    simp [drawdown_pct, h]
  · norm_num [List.foldl, update_peak]
  · norm_num [List.foldl, update_peak, drawdown_pct]

/-- Witness for C7: the peak updates at 50000 over 10000, and the
drawdown at peak 50000 and current 20000 is 60. -/
theorem peak_liquidity_drawdown_witness :
    update_peak (some 10000) 50000 = some 50000
    ∧ drawdown_pct (some 50000) 20000 = max 0 ((50000 - 20000) / 50000 * 100) :=
  ⟨peak_liquidity_drawdown.2.1 (some 10000) 50000 (by norm_num) (by norm_num),
   peak_liquidity_drawdown.2.2.2.2.2.1 50000 20000 (by norm_num)⟩

/-- The safety cache is consulted first: a call on a filled cache returns
the cached pair without consulting the probe, for every later call. -/
theorem safety_run_cached (r : Bool × Bool) (ps : List AccountInfoResult) :
    safety_run (some r) ps = ps.map (fun _ => (r, false)) := by
  induction ps with
  | nil => rfl
  | cons p ps ih => simp [safety_run, safety_call, ih]

/-- Claim C6: the safety probe runs at most once per entity: starting
from an empty cache, the first call invokes the probe and stores its
outcome — (false, false) when the probe fails — and every further call
returns that stored pair without invoking the probe; over any call
sequence the probe is invoked at most once. -/
theorem safety_probe_memoized :
    (∀ (p : AccountInfoResult) (ps : List AccountInfoResult),
        safety_run none (p :: ps) =
          (compute_safety p, true) :: ps.map (fun _ => (compute_safety p, false)))
    ∧ compute_safety .fail = (false, false)
    ∧ (∀ (c : Option (Bool × Bool)) (ps : List AccountInfoResult),
        ((safety_run c ps).countP (fun r => r.2)) ≤ 1) := by
  refine ⟨?_, rfl, ?_⟩
  · intro p ps
    simp [safety_run, safety_call, safety_run_cached]
  · intro c ps
    cases c with
    | some r =>
      rw [safety_run_cached]
      simp [List.countP_eq_length_filter]
    | none =>
      cases ps with
      | nil => simp [safety_run]
      | cons p rest =>
        have h1 : safety_run none (p :: rest) =
            (compute_safety p, true) :: rest.map (fun _ => (compute_safety p, false)) := by
          simp [safety_run, safety_call, safety_run_cached]
        rw [h1]
        simp [List.countP_cons, List.countP_eq_length_filter]

/-- The classification decision as a cascade over the two qualification
predicates and the T1 threshold: T2 is checked first, then T3, then T1. -/
theorem classify_cascade (cfg : Config) (x : ClassifyInput) :
    classify cfg x =
      if t2_qualifies cfg x then some Tier.T2
      else if t3_qualifies cfg x then some Tier.T3
      else if cfg.MIN_UNIQUE_CHANNELS_T1 ≤ x.k_unique then some Tier.T1
      else none := by
  unfold classify t2_qualifies t3_qualifies
  cases hs : x.safe_ok with
  | false => simp
  | true =>
    simp only [Bool.true_and, if_true]
    by_cases h2 : t2_checks cfg x = true
    · simp [h2]
    · simp only [Bool.not_eq_true] at h2
      by_cases h3 : t3_checks cfg x = true
      · simp [h2, h3]
      · simp only [Bool.not_eq_true] at h3
        simp [h2, h3]

/-- Counterexample to claim C2: under a configuration reachable through
the documented environment knobs (T2_AGE_MAX_MINUTES = 200, which passes
validate_ranges) there is an evaluation in which the T2 conditions and
the T3 conditions hold simultaneously, and the produced classification is
T2, not T3: the source checks the T2 branch first (evaluator.py:262-293)
and enters the T3 branch only when no classification was produced
(evaluator.py:296). -/
theorem tier_order_counterexample :
    t2_qualifies ctrCfg ctrX = true
    ∧ t3_qualifies ctrCfg ctrX = true
    ∧ classify ctrCfg ctrX = some Tier.T2
    ∧ classify ctrCfg ctrX ≠ some Tier.T3 := by
  have hcls : classify ctrCfg ctrX = some Tier.T2 := by
    norm_num [classify, t2_checks, t3_checks, t3_price_ok, t3_trend_ok, drawdown_pct,
      ctrCfg, ctrX, defaultConfig]
  refine ⟨?_, ?_, hcls, by rw [hcls]; decide⟩ <;>
    norm_num [t2_qualifies, t3_qualifies, t2_checks, t3_checks, t3_price_ok,
      t3_trend_ok, drawdown_pct, ctrCfg, ctrX, defaultConfig]

/-- Claim C2, amended: per mention event the classifier evaluates T2
first, then T3, then T1, and the first qualifying tier wins; in
particular, when both the T2 and the T3 conditions hold the produced
classification is T2. -/
theorem tier_order_t2_first (cfg : Config) (x : ClassifyInput) :
    (t2_qualifies cfg x = true → classify cfg x = some Tier.T2)
    ∧ (t2_qualifies cfg x = false → t3_qualifies cfg x = true →
        classify cfg x = some Tier.T3)
    ∧ (t2_qualifies cfg x = false → t3_qualifies cfg x = false →
        classify cfg x =
          if cfg.MIN_UNIQUE_CHANNELS_T1 ≤ x.k_unique then some Tier.T1 else none) := by
  refine ⟨?_, ?_, ?_⟩
  · intro h2
    rw [classify_cascade, if_pos h2]
  · intro h2 h3
    rw [classify_cascade, if_neg (by simp [h2]), if_pos h3]
  · intro h2 h3
    rw [classify_cascade, if_neg (by simp [h2]), if_neg (by simp [h3])]

/-- Witness for the amended C2 at the overlapping-window instance. -/
theorem tier_order_t2_first_witness :
    t2_qualifies ctrCfg ctrX = true ∧ classify ctrCfg ctrX = some Tier.T2 :=
  ⟨by norm_num [t2_qualifies, t2_checks, drawdown_pct, ctrCfg, ctrX, defaultConfig],
   (tier_order_t2_first ctrCfg ctrX).1
     (by norm_num [t2_qualifies, t2_checks, drawdown_pct, ctrCfg, ctrX, defaultConfig])⟩

/-- The decay multiplier in closed form for non-negative ages: a
base-2 exponential in the age over the effective (clamped) half-life. -/
theorem decay_multiplier_rpow (cfg : Config) (a : ℝ) (h : 0 ≤ a) :
    decay_multiplier cfg a = (2 : ℝ) ^ (-(a / (decay_half_life cfg : ℝ))) := by
  unfold decay_multiplier
  by_cases h0 : a ≤ 0
  · have ha : a = 0 := le_antisymm h0 h
    subst ha
    simp
  · rw [if_neg h0]
    rw [Real.rpow_def_of_pos (by norm_num : (0:ℝ) < 2)]
    ring_nf

/-- Counterexample to claim C9: with the mention-decay half-life
configured to 0.5 minutes, a retained mention of weight 1 and age 1
minute contributes exp(-ln 2 * 1 / 1) = 2^(-1) to the decayed score — the
source clamps the half-life below at 1 minute (evaluator.py:63) — while
the claim's formula with the configured half-life gives 2^(-1/0.5) =
2^(-2), and the two differ. -/
theorem decay_configured_half_life_counterexample :
    decayed_score cfgHalf 1 [⟨0, 0, 3, 1⟩] ≠
      (1 : ℝ) * (2 : ℝ) ^ (-(((1 : ℚ) : ℝ) / ((cfgHalf.MENTION_DECAY_HALF_LIFE_MIN : ℚ) : ℝ))) := by
  have hl : decayed_score cfgHalf 1 [⟨0, 0, 3, 1⟩] = (2 : ℝ) ^ (-(1 : ℝ)) := by
    have hhalf : (decay_half_life cfgHalf : ℝ) = 1 := by
      norm_num [decay_half_life, cfgHalf, defaultConfig]
    have harg : (((1 : ℚ) - 0 : ℚ) : ℝ) = (1 : ℝ) := by norm_num
    have hm := decay_multiplier_rpow cfgHalf 1 (by norm_num)
    rw [hhalf] at hm
    simp only [decayed_score, harg, hm]
    norm_num
  have hr : ((cfgHalf.MENTION_DECAY_HALF_LIFE_MIN : ℚ) : ℝ) = 1 / 2 := by
    norm_num [cfgHalf, defaultConfig]
  rw [hl, hr]
  have hlt : (2 : ℝ) ^ (-(2 : ℝ)) < (2 : ℝ) ^ (-(1 : ℝ)) := by
    apply Real.rpow_lt_rpow_left_iff (by norm_num : (1:ℝ) < 2) |>.mpr
    norm_num
  intro hEq
  rw [show (((1:ℚ):ℝ) / (1 / 2 : ℝ)) = (2 : ℝ) by norm_num] at hEq
  rw [one_mul] at hEq
  exact absurd hEq (ne_of_gt hlt)

/-- Claim C9, amended: a retained mention of weight w and age a ≥ 0
minutes contributes w * 2^(-a / half_life) to the decayed weighted score,
where half_life is the configured mention-decay half-life clamped below
at 1 minute (max(MENTION_DECAY_HALF_LIFE_MIN, 1), evaluator.py:63). -/
theorem decayed_contribution_formula (cfg : Config) (now : ℚ) (m : Mention)
    (rest : List Mention) (h : 0 ≤ now - m.timestamp_utc) :
    decayed_score cfg now (m :: rest) =
      (m.weight : ℝ) *
        (2 : ℝ) ^ (-(((now - m.timestamp_utc : ℚ) : ℝ) / (decay_half_life cfg : ℝ)))
      + decayed_score cfg now rest := by
  have hcast : (0 : ℝ) ≤ ((now - m.timestamp_utc : ℚ) : ℝ) := by exact_mod_cast h
  simp only [decayed_score, decay_multiplier_rpow cfg _ hcast]

/-- Witness for the amended C9: a weight-1 mention aged 60 minutes under
the default configuration. -/
theorem decayed_contribution_formula_witness :
    (0 : ℚ) ≤ (60 : ℚ) - 0
    ∧ decayed_score defaultConfig 60 [⟨0, 0, 3, 1⟩] =
        ((1 : ℚ) : ℝ) *
          (2 : ℝ) ^ (-((((60 : ℚ) - 0 : ℚ) : ℝ) / (decay_half_life defaultConfig : ℝ)))
        + decayed_score defaultConfig 60 [] :=
  ⟨by norm_num,
   decayed_contribution_formula defaultConfig 60 ⟨0, 0, 3, 1⟩ [] (by norm_num)⟩

/-- Every tier has rank at least 1. -/
theorem rank_pos (c : Tier) : 1 ≤ rank c := by
  cases c <;> simp [rank]

/-- The gate rejection test is exactly a rank comparison against the
last-sent rank (with 0 for a missing previous tier). -/
theorem gate_rejects_iff (prev : Option Tier) (c : Tier) :
    gate_rejects prev c = true ↔ rank c ≤ rankOpt prev := by
  cases prev with
  | none =>
    simp only [gate_rejects, rankOpt]
    constructor
    · intro h
      exact absurd h (by simp)
    · intro h
      exact absurd h (by have := rank_pos c; omega)
  | some p => simp [gate_rejects, rankOpt]

/-- Case analysis of one process_mention call: either no alert is emitted
and the state is the bookkeeping state (classification absent or gate
rejection), or the classification c passed the gate, the alert for c is
emitted, and the state additionally records c and runs the T1 latch. -/
theorem process_mention_cases (cfg : Config) (st : EntityState) (inp : MentionInput) :
    (process_mention cfg st inp = (pre_state st inp, none)
      ∧ (classify cfg (classify_input_of cfg st inp) = none
         ∨ ∃ c, classify cfg (classify_input_of cfg st inp) = some c
             ∧ rank c ≤ rankOpt st.last_rank_sent))
    ∨ (∃ c, classify cfg (classify_input_of cfg st inp) = some c
        ∧ rankOpt st.last_rank_sent < rank c
        ∧ process_mention cfg st inp =
            ({ pre_state st inp with
                t1_price_usd := t1_latch st inp c,
                last_rank_sent := some c }, some c)) := by
  unfold process_mention
  rcases hc : classify cfg (classify_input_of cfg st inp) with _ | c
  · exact Or.inl ⟨rfl, Or.inl rfl⟩
  · dsimp only
    by_cases hg : gate_rejects st.last_rank_sent c = true
    · rw [if_pos hg]
      exact Or.inl ⟨rfl, Or.inr ⟨c, rfl, (gate_rejects_iff _ _).mp hg⟩⟩
    · rw [if_neg hg]
      have hlt : rankOpt st.last_rank_sent < rank c := by
        have := (gate_rejects_iff st.last_rank_sent c).not.mp hg
        omega
      exact Or.inr ⟨c, rfl, hlt, rfl⟩

/-- The bookkeeping state keeps the alert-gate fields. -/
theorem pre_state_gate_fields (st : EntityState) (inp : MentionInput) :
    (pre_state st inp).last_rank_sent = st.last_rank_sent
    ∧ (pre_state st inp).t1_price_usd = st.t1_price_usd := ⟨rfl, rfl⟩

/-- Claim C1: the alert gate accepts a classification c exactly when
rank c strictly exceeds the rank of the last sent tier (none ranking 0);
on acceptance the alert for c is emitted and c is recorded as the last
sent tier; on rejection no alert is emitted and the last-sent tier is
unchanged; consequently over any call sequence the ranks of the alerts
actually sent form a strictly increasing chain above the initial
last-sent rank. -/
theorem alert_gate_monotone (cfg : Config) :
    (∀ (st : EntityState) (inp : MentionInput) (c : Tier),
        classify cfg (classify_input_of cfg st inp) = some c →
          ((process_mention cfg st inp).2 = some c ↔
             rankOpt st.last_rank_sent < rank c))
    ∧ (∀ (st : EntityState) (inp : MentionInput) (c : Tier),
        (process_mention cfg st inp).2 = some c →
          (process_mention cfg st inp).1.last_rank_sent = some c)
    ∧ (∀ (st : EntityState) (inp : MentionInput),
        (process_mention cfg st inp).2 = none →
          (process_mention cfg st inp).1.last_rank_sent = st.last_rank_sent)
    ∧ (∀ (st : EntityState) (inps : List MentionInput),
        List.Chain (fun a b => a < b) (rankOpt st.last_rank_sent)
          (((run_mentions cfg st inps).2).map rank)) := by
  have hout := process_mention_cases cfg
  refine ⟨?_, ?_, ?_, ?_⟩
  · intro st inp c hc
    rcases hout st inp with ⟨heq, hrej⟩ | ⟨c', hc', hlt, heq⟩
    · rw [heq]
      simp only [Prod.snd]
      constructor
      · intro h
        exact absurd h (by simp)
      · intro h
        rcases hrej with h0 | ⟨c2, hc2, hle⟩
        · rw [h0] at hc
          exact absurd hc (by simp)
        · rw [hc] at hc2
          injection hc2 with hcc
          subst hcc
          omega
    · rw [hc] at hc'
      injection hc' with hcc
      subst hcc
      rw [heq]
      simp [hlt]
  · intro st inp c h
    rcases hout st inp with ⟨heq, _⟩ | ⟨c', _, _, heq⟩
    · rw [heq] at h
      exact absurd h (by simp)
    · rw [heq] at h ⊢
      injection h with h2
      rw [← h2]
  · intro st inp h
    rcases hout st inp with ⟨heq, _⟩ | ⟨c', _, _, heq⟩
    · rw [heq]
      rfl
    · rw [heq] at h
      exact absurd h (by simp)
  · intro st inps
    induction inps generalizing st with
    | nil => exact List.Chain.nil
    | cons i is ih =>
      rcases hout st i with ⟨heq, _⟩ | ⟨c, _, hlt, heq⟩
      · have : run_mentions cfg st (i :: is) =
            ((run_mentions cfg (pre_state st i) is).1,
             (run_mentions cfg (pre_state st i) is).2) := by
          simp [run_mentions, heq]
        rw [this]
        have hsame : rankOpt (pre_state st i).last_rank_sent =
            rankOpt st.last_rank_sent := rfl
        have := ih (pre_state st i)
        rw [hsame] at this
        simpa using this
      · have hrun : run_mentions cfg st (i :: is) =
            ((run_mentions cfg ({ pre_state st i with
                t1_price_usd := t1_latch st i c,
                last_rank_sent := some c }) is).1,
             c :: (run_mentions cfg ({ pre_state st i with
                t1_price_usd := t1_latch st i c,
                last_rank_sent := some c }) is).2) := by
          simp [run_mentions, heq]
        rw [hrun]
        simp only [List.map_cons]
        refine List.Chain.cons hlt ?_
        have := ih ({ pre_state st i with
            t1_price_usd := t1_latch st i c,
            last_rank_sent := some c })
        simpa [rankOpt] using this

/-- Witness for C1: a fourth unique channel under the default
configuration classifies the fresh entity as T1 and the gate accepts. -/
theorem alert_gate_monotone_witness :
    classify defaultConfig (classify_input_of defaultConfig st0 inp0) = some Tier.T1
    ∧ ((process_mention defaultConfig st0 inp0).2 = some Tier.T1 ↔
        rankOpt st0.last_rank_sent < rank Tier.T1) :=
  ⟨by norm_num [classify, classify_input_of, t2_checks, t3_checks, t3_price_ok, t3_trend_ok,
      unique_channels_recent, retained, resolved_dex, safety_call, compute_safety,
      age_minutes, update_peak, drawdown_pct, st0, inp0, defaultConfig,
      List.filter, List.dedup, List.map],
   (alert_gate_monotone defaultConfig).1 st0 inp0 Tier.T1
     (by norm_num [classify, classify_input_of, t2_checks, t3_checks, t3_price_ok,
        t3_trend_ok, unique_channels_recent, retained, resolved_dex, safety_call,
        compute_safety, age_minutes, update_peak, drawdown_pct, st0, inp0, defaultConfig,
        List.filter, List.dedup, List.map])⟩

/-- Claim C4: the tier-1 reference price is write-once: a latched price
survives every further call (and every call sequence); a call that
changes it starts from an unset price, emits an accepted T1 alert, and
stores exactly the live price, which must be present and nonzero at that
moment; and an accepted T1 can only happen with no previously sent tier,
so the latching call is the first (and only) accepted T1. -/
theorem t1_price_write_once (cfg : Config) :
    (∀ (st : EntityState) (inp : MentionInput) (p : ℚ),
        st.t1_price_usd = some p →
          (process_mention cfg st inp).1.t1_price_usd = some p)
    ∧ (∀ (st : EntityState) (inps : List MentionInput) (p : ℚ),
        st.t1_price_usd = some p →
          (run_mentions cfg st inps).1.t1_price_usd = some p)
    ∧ (∀ (st : EntityState) (inp : MentionInput),
        (process_mention cfg st inp).1.t1_price_usd ≠ st.t1_price_usd →
          st.t1_price_usd = none
          ∧ (process_mention cfg st inp).2 = some Tier.T1
          ∧ ∃ q, (resolved_dex st inp).price_usd = some q ∧ q ≠ 0
              ∧ (process_mention cfg st inp).1.t1_price_usd = some q)
    ∧ (∀ (st : EntityState) (inp : MentionInput),
        (process_mention cfg st inp).2 = some Tier.T1 → st.last_rank_sent = none) := by
  have hstep : ∀ (st : EntityState) (inp : MentionInput) (p : ℚ),
      st.t1_price_usd = some p →
        (process_mention cfg st inp).1.t1_price_usd = some p := by
    intro st inp p hp
    rcases process_mention_cases cfg st inp with ⟨heq, _⟩ | ⟨c, _, _, heq⟩
    · rw [heq]
      exact hp
    · rw [heq]
      simp only [t1_latch]
      rw [if_neg (by simp [hp])]
      exact hp
  refine ⟨hstep, ?_, ?_, ?_⟩
  · intro st inps
    induction inps generalizing st with
    | nil =>
      intro p hp
      exact hp
    | cons i is ih =>
      intro p hp
      rcases hpm : process_mention cfg st i with ⟨st', out⟩
      have h1 : st'.t1_price_usd = some p := by
        have := hstep st i p hp
        rw [hpm] at this
        exact this
      have hfst : (run_mentions cfg st (i :: is)).1 = (run_mentions cfg st' is).1 := by
        simp only [run_mentions, hpm]
      rw [hfst]
      exact ih st' p h1
  · intro st inp hne
    rcases process_mention_cases cfg st inp with ⟨heq, _⟩ | ⟨c, _, _, heq⟩
    · rw [heq] at hne
      exact absurd rfl hne
    · rw [heq] at hne ⊢
      by_cases hcond : c = Tier.T1 ∧ st.t1_price_usd = none
      · rcases hcond with ⟨hc1, hnone⟩
        subst hc1
        refine ⟨hnone, rfl, ?_⟩
        simp only [t1_latch, hnone, and_self, if_true, reduceIte] at hne ⊢
        rcases hq : (resolved_dex st inp).price_usd with _ | q
        · simp only [hq] at hne
          exact absurd rfl hne
        · simp only [hq] at hne
          by_cases hq0 : q = 0
          · simp [hq0] at hne
          · exact ⟨q, by simp [hq, hq0], hq0, by simp [hq, hq0]⟩
      · simp only [t1_latch, if_neg hcond] at hne
        exact absurd rfl hne
  · intro st inp h
    rcases process_mention_cases cfg st inp with ⟨heq, _⟩ | ⟨c, _, hlt, heq⟩
    · rw [heq] at h
      exact absurd h (by simp)
    · rw [heq] at h
      injection h with h2
      subst h2
      cases hprev : st.last_rank_sent with
      | none => rfl
      | some p =>
        rw [hprev] at hlt
        have h1 := rank_pos p
        have h2 : rankOpt (some p) = rank p := rfl
        have h3 : rank Tier.T1 = 1 := rfl
        rw [h2, h3] at hlt
        omega

/-- Witness for C4: a latched price 5 survives a further call. -/
theorem t1_price_write_once_witness :
    st5.t1_price_usd = some 5
    ∧ (process_mention defaultConfig st5 inp0).1.t1_price_usd = some 5 :=
  ⟨rfl, (t1_price_write_once defaultConfig).1 st5 inp0 5 rfl⟩

/-- The end query only returns snapshots on the same UTC day as the
target instant or later; it does not bound them below by the target
instant itself. -/
theorem end_snapshot_query_day_le (t : ℤ) : ∀ (l : List Snapshot) (s : Snapshot),
    end_snapshot_query t l = some s → utc_day t ≤ utc_day s.ts_utc
  | [], s => by simp [end_snapshot_query]
  | a :: rest, s => by
    intro h
    simp only [end_snapshot_query] at h
    by_cases hc : (a.price_usd.isSome && decide (utc_day t ≤ utc_day a.ts_utc)) = true
    · rw [if_pos hc] at h
      rcases hr : end_snapshot_query t rest with _ | s2
      · rw [hr] at h
        injection h with h2
        subst h2
        exact of_decide_eq_true ((Bool.and_eq_true _ _).mp hc).2
      · rw [hr] at h
        dsimp only at h
        by_cases hle : a.ts_utc ≤ s2.ts_utc
        · rw [if_pos hle] at h
          injection h with h2
          subst h2
          exact of_decide_eq_true ((Bool.and_eq_true _ _).mp hc).2
        · rw [if_neg hle] at h
          injection h with h2
          subst h2
          exact end_snapshot_query_day_le t rest s2 hr
    · rw [if_neg hc] at h
      exact end_snapshot_query_day_le t rest s h

/-- Claim C3 is right and the code is wrong: the function's own
docstring (stats.py:318) promises "first signal price vs future
snapshots. Idempotent.", but for an entity whose base signal sits at
noon (minute 720) of a UTC day with a positive-price snapshot recorded
earlier the same day (minute 60, hours before the signal), the end
query for base + 15 admits and selects that pre-signal snapshot, the
recorded outcome's ts_utc (60) falls below base_ts (720), the existence
check at stats.py:347 (ts_utc >= base_ts, an instant-order comparison)
never finds it, and every further invocation inserts another duplicate
row for the pair (entity, 15). -/
theorem outcome_duplicate_rows :
    (maybe_record_outcomes [15] stB).outcomes = [⟨60, 15, 100, 1, 2⟩]
    ∧ (maybe_record_outcomes [15] (maybe_record_outcomes [15] stB)).outcomes =
        [⟨60, 15, 100, 1, 2⟩, ⟨60, 15, 100, 1, 2⟩]
    ∧ (outcomes_for
        (maybe_record_outcomes [15] (maybe_record_outcomes [15] stB)) 15).length = 2 := by
  have hd : decide (utc_day 735 ≤ utc_day 60) = true := by decide
  refine ⟨?_, ?_, ?_⟩ <;>
    norm_num [maybe_record_outcomes, stB, resolve_start_price, latest_at_or_before,
      end_snapshot_query, derive_horizon, outcomes_for, hd, List.foldl, List.min?,
      List.any, List.filter]

/-- Counterexample to claim C5, refuting both halves of its selection
rule.  Positivity: in stX the earliest snapshot per the claim's words
(at or after base + 15 with a positive price) is the ts-16 snapshot at
price 1.5, so the claim mandates a persisted record; the code's query
instead selects the earliest non-null-price snapshot — ts 15 at price 0
— and the end_price <= 0 check (stats.py:363-365) skips the horizon, so
nothing is ever recorded.  Time bound: in stB no snapshot at or after
base + 15 = 735 exists, so the claim leaves the horizon unresolved; the
code's end query compares 'T'-separator timestamps against a
space-separated datetime() bound, admits the same-UTC-day snapshot at
minute 60 (price 2), and records an outcome whose end point precedes
base + H — indeed precedes the base signal itself. -/
theorem outcome_end_selection_counterexample :
    claim_end_snapshot (0 + 15) stX.snapshots = some ⟨16, some (3/2)⟩
    ∧ (maybe_record_outcomes [15] stX).outcomes = []
    ∧ claim_end_snapshot (720 + 15) stB.snapshots = none
    ∧ (maybe_record_outcomes [15] stB).outcomes = [⟨60, 15, 100, 1, 2⟩] := by
  have hd15 : decide (utc_day 15 ≤ utc_day 15) = true := by decide
  have hd16 : decide (utc_day 15 ≤ utc_day 16) = true := by decide
  have hd : decide (utc_day 735 ≤ utc_day 60) = true := by decide
  refine ⟨?_, ?_, ?_, ?_⟩ <;>
    norm_num [claim_end_snapshot, maybe_record_outcomes, stX, stB, resolve_start_price,
      latest_at_or_before, end_snapshot_query, derive_horizon, hd15, hd16, hd,
      List.foldl, List.min?, List.any]

/-- Claim C5, amended: outcome derivation for horizon H selects as the
end point the earliest stored snapshot whose price is non-null and whose
timestamp lies on the same UTC day as base + H or later — the query's
string comparison is day-granular, so the selected snapshot may precede
base + H; it persists roi_pct = (end - start) / start * 100 from that
snapshot's price with no interpolation only when that price is positive,
and otherwise — as when no such snapshot exists — leaves the horizon
unresolved (no record) for that invocation; the spec's scenario
(baseline at ts 0 with price 1, snapshot at ts + 15 min with price 1.5,
horizon set {15}) yields exactly one OutcomeRecord with roi_pct = 50,
idempotently. -/
theorem outcome_derivation_end_selection :
    (∀ (st : StatsState) (b : ℤ) (sp : ℚ) (horizons : List ℤ),
        st.signals.min? = some b →
        resolve_start_price st.start_price_mem st.snapshots b = some sp →
        maybe_record_outcomes horizons st = horizons.foldl (derive_horizon b sp) st)
    ∧ (∀ (t : ℤ) (l : List Snapshot) (s : Snapshot),
        end_snapshot_query t l = some s → utc_day t ≤ utc_day s.ts_utc)
    ∧ (∀ (b : ℤ) (sp : ℚ) (st : StatsState) (m : ℤ) (s : Snapshot) (e : ℚ),
        st.outcomes.any (fun o => o.horizon_min == m && decide (b ≤ o.ts_utc)) = false →
        end_snapshot_query (b + m) st.snapshots = some s →
        s.price_usd = some e → 0 < e →
        derive_horizon b sp st m =
          { st with outcomes := st.outcomes ++ [⟨s.ts_utc, m, (e - sp) / sp * 100, sp, e⟩] })
    ∧ (∀ (b : ℤ) (sp : ℚ) (st : StatsState) (m : ℤ) (s : Snapshot) (e : ℚ),
        end_snapshot_query (b + m) st.snapshots = some s →
        s.price_usd = some e → e ≤ 0 →
        derive_horizon b sp st m = st)
    ∧ (∀ (b : ℤ) (sp : ℚ) (st : StatsState) (m : ℤ),
        end_snapshot_query (b + m) st.snapshots = none →
        derive_horizon b sp st m = st)
    ∧ (maybe_record_outcomes [15] stG).outcomes = [⟨15, 15, 50, 1, 3/2⟩]
    ∧ maybe_record_outcomes [15] (maybe_record_outcomes [15] stG) =
        maybe_record_outcomes [15] stG := by
  have hd15 : decide (utc_day 15 ≤ utc_day 15) = true := by decide
  refine ⟨?_, ?_, ?_, ?_, ?_, ?_, ?_⟩
  · intro st b sp horizons hb hsp
    unfold maybe_record_outcomes
    rw [hb]
    dsimp only
    rw [hsp]
  · exact fun t l s h => end_snapshot_query_day_le t l s h
  · intro b sp st m s e hany he hse hpos
    unfold derive_horizon
    rw [if_neg (by rw [hany]; simp), he]
    dsimp only
    rw [hse]
    simp only [Option.getD_some]
    rw [if_neg (not_le.mpr hpos)]
  · intro b sp st m s e he hse hle
    unfold derive_horizon
    by_cases hany : st.outcomes.any (fun o => o.horizon_min == m && decide (b ≤ o.ts_utc)) = true
    · rw [if_pos hany]
    · rw [if_neg hany, he]
      dsimp only
      rw [hse]
      simp only [Option.getD_some]
      rw [if_pos hle]
  · intro b sp st m he
    unfold derive_horizon
    by_cases hany : st.outcomes.any (fun o => o.horizon_min == m && decide (b ≤ o.ts_utc)) = true
    · rw [if_pos hany]
    · rw [if_neg hany, he]
  · norm_num [maybe_record_outcomes, stG, add_snapshot, record_signal, resolve_start_price,
      latest_at_or_before, end_snapshot_query, derive_horizon, hd15, List.foldl,
      List.min?, List.any]
  · norm_num [maybe_record_outcomes, stG, add_snapshot, record_signal, resolve_start_price,
      latest_at_or_before, end_snapshot_query, derive_horizon, hd15, List.foldl,
      List.min?, List.any]

/-- Witness for the amended C5 at the scenario state: the end query for
0 + 15 over stG's snapshots selects the ts-15 snapshot at the positive
price 1.5, and the per-horizon body appends exactly the roi-50 record. -/
theorem outcome_derivation_end_selection_witness :
    (stG.outcomes.any (fun o => o.horizon_min == (15:ℤ) && decide ((0:ℤ) ≤ o.ts_utc)) = false)
    ∧ end_snapshot_query (0 + 15) stG.snapshots = some ⟨15, some (3/2)⟩
    ∧ derive_horizon 0 1 stG 15 =
        { stG with outcomes := stG.outcomes ++ [⟨15, 15, (3/2 - 1) / 1 * 100, 1, 3/2⟩] } :=
  ⟨by norm_num [stG, add_snapshot, record_signal],
   by norm_num [stG, add_snapshot, record_signal, end_snapshot_query,
     (show decide (utc_day 15 ≤ utc_day 15) = true by decide)],
   outcome_derivation_end_selection.2.2.1 0 1 stG 15 ⟨15, some (3/2)⟩ (3/2)
     (by norm_num [stG, add_snapshot, record_signal])
     (by norm_num [stG, add_snapshot, record_signal, end_snapshot_query,
        (show decide (utc_day 15 ≤ utc_day 15) = true by decide)])
     rfl (by norm_num)⟩

end CallsBot
